import Mathlib

/-!
Shallow embedding of the environmental risk pipeline of
`backend/services/environmental.py` and the alert synthesis of `backend/main.py`.

Grids (2-D numpy arrays) are embedded as `List (List ℚ)` (rows of cells), with
exact rational arithmetic standing in for float64.  Boolean masks are
`List (List Bool)`.  The slope computation, which goes through `np.arctan`, is
embedded over `ℝ`.  Fallible numpy operations (broadcast errors) return
`Option`.
-/

/-- Element of a 2-D grid at row `i`, column `j`, as an `Option`. -/
def cellO {α : Type} (g : List (List α)) (i j : ℕ) : Option α :=
  (g[i]?).bind fun r => r[j]?

/-- Element of a 2-D grid at row `i`, column `j`; `d` out of range
(numpy indexing in the source is always in range). -/
def gget {α : Type} (g : List (List α)) (d : α) (i j : ℕ) : α :=
  (cellO g i j).getD d

/-- Element of a rational grid, defaulting to 0 out of range. -/
def getA (g : List (List ℚ)) (i j : ℕ) : ℚ := gget g 0 i j

/-- Number of columns of a grid: the length of its first row (numpy arrays are
rectangular, so every row has this length). -/
def colsOf {α : Type} (g : List (List α)) : ℕ := (g.getD 0 []).length

/-- numpy broadcast of two sizes along one axis: they must be equal, or one of
them must be 1 (which is then stretched).  `none` is numpy's
"operands could not be broadcast together" `ValueError`. -/
def bdim (a b : ℕ) : Option ℕ :=
  if a = b then some a else if a = 1 then some b else if b = 1 then some a else none

/-- Index into an axis of size `dim` that has been broadcast: a size-1 axis is
read at 0 whatever the target index. -/
def bidx (dim i : ℕ) : ℕ := if dim = 1 then 0 else i

/-- Embedding of `detect_water_change(old_ndwi, new_ndwi, threshold=0.2)`:
`change = new_ndwi - old_ndwi; water_expansion = (change > threshold) & (new_ndwi > 0.3)`.
The numpy operators `-`, `>` and `&` broadcast; mismatched but broadcast-compatible
shapes are silently combined, and only incompatible shapes raise (`none` here).
The source has no shape validation of its own. -/
def detect_water_change (old_ndwi new_ndwi : List (List ℚ)) (threshold : ℚ) :
    Option (List (List Bool)) :=
  match bdim old_ndwi.length new_ndwi.length, bdim (colsOf old_ndwi) (colsOf new_ndwi) with
  | some m, some n =>
    some <| (List.range m).map fun i => (List.range n).map fun j =>
      let oldv := getA old_ndwi (bidx old_ndwi.length i) (bidx (colsOf old_ndwi) j)
      let newv := getA new_ndwi (bidx new_ndwi.length i) (bidx (colsOf new_ndwi) j)
      decide (newv - oldv > threshold) && decide (newv > 3/10)
  | _, _ => none

theorem bdim_self (a : ℕ) : bdim a a = some a := by simp [bdim]

theorem bidx_eq_of_lt {dim i : ℕ} (h : i < dim) : bidx dim i = i := by
  unfold bidx
  split
  · omega
  · rfl

theorem getD_map_range {α : Type} (f : ℕ → α) {m i : ℕ} (hi : i < m) (d : α) :
    ((List.range m).map f).getD i d = f i := by
  rw [List.getD_eq_getElem?_getD, List.getElem?_map, List.getElem?_range hi]
  rfl

/-- Entries of the change mask for equal-shape inputs, in fully unfolded form. -/
theorem detect_water_change_entry (old_ndwi new_ndwi : List (List ℚ)) (t : ℚ) {m n i j : ℕ}
    (hom : old_ndwi.length = m) (hoc : colsOf old_ndwi = n)
    (hnm : new_ndwi.length = m) (hnc : colsOf new_ndwi = n)
    (hi : i < m) (hj : j < n) :
    ∃ mask, detect_water_change old_ndwi new_ndwi t = some mask ∧
      ((mask.getD i []).getD j false = true ↔
        (getA new_ndwi i j - getA old_ndwi i j > t ∧ getA new_ndwi i j > 3/10)) := by
  unfold detect_water_change
  rw [hom, hoc, hnm, hnc, bdim_self, bdim_self]
  refine ⟨_, rfl, ?_⟩
  rw [getD_map_range _ hi, getD_map_range _ hj]
  rw [bidx_eq_of_lt hi, bidx_eq_of_lt hj]
  simp

theorem cellO_map_map {α β : Type} (g : List (List α)) (f : α → β) (i j : ℕ) :
    cellO (g.map (List.map f)) i j = (cellO g i j).map f := by
  unfold cellO
  rw [List.getElem?_map]
  cases g[i]? <;> simp [List.getElem?_map]

theorem colsOf_map_map {α β : Type} (g : List (List α)) (f : α → β) :
    colsOf (g.map (List.map f)) = colsOf g := by
  cases g <;> simp [colsOf]

/-- C4: the change mask is true at a cell iff the water index rose strictly more
than the threshold and the new index strictly exceeds 0.3; when the new grid
exceeds the old one by exactly the threshold 0.2 = 1/5 everywhere, every mask
entry is false. -/
theorem detect_water_change_spec :
    (∀ (old_ndwi new_ndwi : List (List ℚ)) (t : ℚ) (m n i j : ℕ),
      old_ndwi.length = m → colsOf old_ndwi = n → new_ndwi.length = m → colsOf new_ndwi = n →
      i < m → j < n →
      ∃ mask, detect_water_change old_ndwi new_ndwi t = some mask ∧
        ((mask.getD i []).getD j false = true ↔
          (getA new_ndwi i j - getA old_ndwi i j > t ∧ getA new_ndwi i j > 3/10))) ∧
    (∀ old_ndwi : List (List ℚ),
      ∃ mask,
        detect_water_change old_ndwi (old_ndwi.map (List.map (fun v => v + 1/5))) (1/5) =
          some mask ∧ ∀ row ∈ mask, ∀ b ∈ row, b = false) := by
  constructor
  · intro old_ndwi new_ndwi t m n i j hom hoc hnm hnc hi hj
    exact detect_water_change_entry old_ndwi new_ndwi t hom hoc hnm hnc hi hj
  · intro old_ndwi
    unfold detect_water_change
    rw [List.length_map, colsOf_map_map, bdim_self, bdim_self]
    refine ⟨_, rfl, ?_⟩
    intro row hrow b hb
    rcases List.mem_map.1 hrow with ⟨i, _, rfl⟩
    rcases List.mem_map.1 hb with ⟨j, _, rfl⟩
    simp only [getA, gget, cellO_map_map]
    cases h : cellO old_ndwi (bidx old_ndwi.length i) (bidx (colsOf old_ndwi) j) <;>
      simp [h]

/-- C5: the source performs no shape validation and defines no `ShapeMismatch`
error.  A 1-by-2 old grid and a 2-by-2 new grid have mismatched shapes, yet
`detect_water_change` silently broadcasts the old grid over both rows and
returns a full 2-by-2 mask instead of failing. -/
theorem detect_water_change_no_shape_check :
    [[(0:ℚ), 0]].length ≠ [[(1:ℚ), 1], [1, 1]].length ∧
    detect_water_change [[(0:ℚ), 0]] [[(1:ℚ), 1], [1, 1]] (1/5) =
      some [[true, true], [true, true]] := by
  refine ⟨by decide, ?_⟩
  unfold detect_water_change
  norm_num [bdim, colsOf, getA, gget, cellO, bidx, List.range_succ]

/-- Float value of a boolean mask cell, as in `water_change.astype(float)`. -/
def bfloat (b : Bool) : ℚ := if b then 1 else 0

/-- Index reflection of scipy's default boundary mode for a radius-1 window:
offset -1 at the top edge reads row 0 again, offset +1 at the bottom edge reads
row `n-1` again. -/
def reflectIdx (n : ℕ) (t : Int) : ℕ :=
  if t < 0 then 0 else if (n : Int) ≤ t then n - 1 else t.toNat

/-- Relative offsets of the 3-by-3 window of `maximum_filter(..., size=3)`. -/
def win3 : List (Int × Int) :=
  [(-1, -1), (-1, 0), (-1, 1), (0, -1), (0, 0), (0, 1), (1, -1), (1, 0), (1, 1)]

/-- Embedding of `maximum_filter(water_change.astype(float), size=3)` at cell
`(i, j)`: the maximum of the 0/1 floats over the reflected 3-by-3 window is 1
exactly when some window cell is true. -/
def maxFilter3 (mask : List (List Bool)) (i j : ℕ) : Bool :=
  win3.any fun d =>
    gget mask false (reflectIdx mask.length ((i : Int) + d.1))
      (reflectIdx (colsOf mask) ((j : Int) + d.2))

/-- Embedding of `calculate_risk_score(water_change, slope_factor, rainfall_factor)`:
cells flagged by the change mask get `50 + slope_factor + rainfall_factor`, every
cell gets the proximity bonus `(maximum_filter(mask, 3) - mask) * 10`, and the
result is `np.clip(risk_score, 0, 100)`.  The output has the shape of the mask. -/
def calculate_risk_score (water_change : List (List Bool))
    (slope_factor rainfall_factor : List (List ℚ)) : List (List ℚ) :=
  (List.range water_change.length).map fun i =>
    (List.range ((water_change.getD i []).length)).map fun j =>
      let wc := gget water_change false i j
      let base : ℚ := if wc then 50 + getA slope_factor i j + getA rainfall_factor i j else 0
      let bonus : ℚ := (bfloat (maxFilter3 water_change i j) - bfloat wc) * 10
      min 100 (max 0 (base + bonus))

/-- C2: every value of the risk-score grid lies in [0, 100] (the final
`np.clip(risk_score, 0, 100)` guarantees this for all inputs, equal-shaped or
not, so no shape hypothesis is needed). -/
theorem calculate_risk_score_bounds (water_change : List (List Bool))
    (slope_factor rainfall_factor : List (List ℚ)) :
    ((calculate_risk_score water_change slope_factor rainfall_factor).all fun row =>
      row.all fun x => decide (0 ≤ x) && decide (x ≤ 100)) = true := by
  rw [List.all_eq_true]
  intro row hrow
  rw [List.all_eq_true]
  intro x hx
  rcases List.mem_map.1 hrow with ⟨i, _, rfl⟩
  rcases List.mem_map.1 hx with ⟨j, _, rfl⟩
  simp only [Bool.and_eq_true, decide_eq_true_eq]
  exact ⟨le_min (by norm_num) (le_max_left 0 _), min_le_left 100 _⟩

/-- Embedding of the axis-0 (row-direction) component of `np.gradient(dem, cell_size)`:
one-sided differences at the first and last row, central differences inside. -/
noncomputable def npGradient0 (dem : List (List ℝ)) (h : ℝ) (i j : ℕ) : ℝ :=
  if i = 0 then (gget dem (0:ℝ) 1 j - gget dem 0 0 j) / h
  else if i = dem.length - 1 then
    (gget dem (0:ℝ) (dem.length - 1) j - gget dem 0 (dem.length - 2) j) / h
  else (gget dem (0:ℝ) (i + 1) j - gget dem 0 (i - 1) j) / (2 * h)

/-- Embedding of the axis-1 (column-direction) component of `np.gradient(dem, cell_size)`. -/
noncomputable def npGradient1 (dem : List (List ℝ)) (h : ℝ) (i j : ℕ) : ℝ :=
  if j = 0 then (gget dem (0:ℝ) i 1 - gget dem 0 i 0) / h
  else if j = colsOf dem - 1 then
    (gget dem (0:ℝ) i (colsOf dem - 1) - gget dem 0 i (colsOf dem - 2)) / h
  else (gget dem (0:ℝ) i (j + 1) - gget dem 0 i (j - 1)) / (2 * h)

/-- Slope angle in degrees:
`np.degrees(np.arctan(np.sqrt(grad_x**2 + grad_y**2)))` where
`grad_y, grad_x = np.gradient(dem, cell_size)`. -/
noncomputable def slope_degrees (dem : List (List ℝ)) (cell_size : ℝ) (i j : ℕ) : ℝ :=
  Real.arctan (Real.sqrt
    (npGradient1 dem cell_size i j ^ 2 + npGradient0 dem cell_size i j ^ 2)) *
    (180 / Real.pi)

/-- Embedding of `calculate_slope_factor(dem, cell_size=30.0)` at one cell.  The
four masked assignments of the source partition the nonnegative degree range, so
they are an if-chain on the cell's slope angle. -/
noncomputable def calculate_slope_factor (dem : List (List ℝ)) (cell_size : ℝ) (i j : ℕ) : ℝ :=
  if slope_degrees dem cell_size i j ≤ 5 then slope_degrees dem cell_size i j
  else if slope_degrees dem cell_size i j ≤ 15 then 5 + (slope_degrees dem cell_size i j - 5)
  else if slope_degrees dem cell_size i j ≤ 30 then
    15 + (slope_degrees dem cell_size i j - 15) * 0.67
  else 25

theorem slope_degrees_nonneg (dem : List (List ℝ)) (cell_size : ℝ) (i j : ℕ) :
    0 ≤ slope_degrees dem cell_size i j := by
  unfold slope_degrees
  have h1 : 0 ≤ Real.arctan (Real.sqrt
      (npGradient1 dem cell_size i j ^ 2 + npGradient0 dem cell_size i j ^ 2)) := by
    have := Real.arctan_strictMono.monotone
      (Real.sqrt_nonneg (npGradient1 dem cell_size i j ^ 2 + npGradient0 dem cell_size i j ^ 2))
    rwa [Real.arctan_zero] at this
  have h2 : 0 ≤ 180 / Real.pi := by positivity
  exact mul_nonneg h1 h2

/-- C1 (amended): every slope-factor value lies in [0, 25.05].  The 15-30 degree
branch reaches `15 + 15 * 0.67 = 25.05` at a slope of exactly 30 degrees, so 25
is not an upper bound, but 25.05 is. -/
theorem calculate_slope_factor_bounds (dem : List (List ℝ)) (cell_size : ℝ) (i j : ℕ) :
    0 ≤ calculate_slope_factor dem cell_size i j ∧
      calculate_slope_factor dem cell_size i j ≤ 25.05 := by
  have h0 := slope_degrees_nonneg dem cell_size i j
  unfold calculate_slope_factor
  split_ifs with h1 h2 h3
  · constructor <;> linarith
  · constructor <;> linarith
  · have hl : 0 ≤ (slope_degrees dem cell_size i j - 15) * 0.67 :=
      mul_nonneg (by linarith) (by norm_num)
    have hu : (slope_degrees dem cell_size i j - 15) * 0.67 ≤ 15 * 0.67 :=
      mul_le_mul_of_nonneg_right (by linarith) (by norm_num)
    constructor <;> nlinarith
  · constructor <;> norm_num

/-- C1 (counterexample): a 2-by-2 elevation grid whose rows differ by
`30 * tan(30 degrees)` meters has slope angle exactly 30 degrees everywhere, and
`calculate_slope_factor` returns `15 + 15 * 0.67 = 25.05 > 25` there, refuting
"the output never exceeds 25". -/
theorem calculate_slope_factor_exceeds_25 :
    25 < calculate_slope_factor
      [[0, 0], [30 * Real.tan (Real.pi / 6), 30 * Real.tan (Real.pi / 6)]] 30 0 0 := by
  have hpi := Real.pi_pos
  set t := Real.tan (Real.pi / 6) with ht
  have htan : (0:ℝ) ≤ t :=
    Real.tan_nonneg_of_nonneg_of_le_pi_div_two (by linarith) (by linarith)
  have g10 : gget [[0, 0], [30 * t, 30 * t]] (0:ℝ) 1 0 = 30 * t := rfl
  have g00 : gget [[0, 0], [30 * t, 30 * t]] (0:ℝ) 0 0 = 0 := rfl
  have g01 : gget [[0, 0], [30 * t, 30 * t]] (0:ℝ) 0 1 = 0 := rfl
  have e0 : npGradient0 [[0, 0], [30 * t, 30 * t]] 30 0 0 = t := by
    unfold npGradient0
    rw [if_pos rfl, g10, g00, sub_zero]
    exact mul_div_cancel_left₀ t (by norm_num)
  have e1 : npGradient1 [[0, 0], [30 * t, 30 * t]] 30 0 0 = 0 := by
    unfold npGradient1
    rw [if_pos rfl, g01, g00, sub_zero]
    norm_num
  have hdeg : slope_degrees [[0, 0], [30 * t, 30 * t]] 30 0 0 = 30 := by
    unfold slope_degrees
    rw [e0, e1]
    have hsq : (0:ℝ) ^ 2 + t ^ 2 = t ^ 2 := by ring
    rw [hsq, Real.sqrt_sq htan, ht, Real.arctan_tan (by linarith) (by linarith)]
    field_simp
    ring
  unfold calculate_slope_factor
  rw [hdeg]
  rw [if_neg (by norm_num), if_neg (by norm_num), if_pos (by norm_num)]
  norm_num

/-- The `risk_levels` table of `generate_risk_geojson`:
`(min_risk, max_risk, level, color)` rows, processed HIGH, MEDIUM, LOW. -/
def riskLevels : List (ℚ × ℚ × String × String) :=
  [(80, 100, "HIGH", "#ef4444"),
   (60, 80, "MEDIUM", "#f97316"),
   (40, 60, "LOW", "#fbbf24")]

/-- Number of rows of `risk_levels` whose half-open band `[min_risk, max_risk)`
contains the score `s`; the band masks of `generate_risk_geojson` are built with
the same comparisons `(risk_score >= min_risk) & (risk_score < max_risk)`. -/
def countBands (s : ℚ) : ℕ :=
  (riskLevels.filter fun b => decide (b.1 ≤ s) && decide (s < b.2.1)).length

/-- Band mask of one `risk_levels` row:
`mask = (risk_score >= min_risk) & (risk_score < max_risk)`. -/
def bandMask (risk : List (List ℚ)) (lo hi : ℚ) : List (List Bool) :=
  risk.map (List.map fun s => decide (lo ≤ s) && decide (s < hi))

/-- All true cells of a mask in raster-scan (row-major) order; this is the pixel
set that `skimage.measure.label` partitions into connected components. -/
def cellsOf (mask : List (List Bool)) : List (ℕ × ℕ) :=
  (List.range mask.length).flatMap fun i =>
    (List.range ((mask.getD i []).length)).filterMap fun j =>
      if gget mask false i j then some (i, j) else none

/-- 8-connectivity (`measure.label(mask, connectivity=2)`): two distinct cells
are adjacent when both row and column indices differ by at most 1. -/
def adj8 (p q : ℕ × ℕ) : Bool :=
  decide (max p.1 q.1 - min p.1 q.1 ≤ 1) && decide (max p.2 q.2 - min p.2 q.2 ≤ 1) &&
    decide (p ≠ q)

/-- Fuelled flood fill over the finite cell universe: grow `visited` from the
`frontier`, pushing the neighbours of each newly visited cell.  Each visit adds
at most `cells.length` frontier entries, so `(cells.length + 1) ^ 2` fuel always
suffices to exhaust the component. -/
def floodAux (cells : List (ℕ × ℕ)) :
    ℕ → List (ℕ × ℕ) → List (ℕ × ℕ) → List (ℕ × ℕ)
  | 0, _, visited => visited
  | _ + 1, [], visited => visited
  | fuel + 1, p :: rest, visited =>
    if p ∈ visited then floodAux cells fuel rest visited
    else floodAux cells fuel ((cells.filter fun q => adj8 p q) ++ rest) (p :: visited)

/-- Connected component of `p` within `cells`. -/
def flood (cells : List (ℕ × ℕ)) (p : ℕ × ℕ) : List (ℕ × ℕ) :=
  floodAux cells ((cells.length + 1) ^ 2) [p] []

/-- Label all components: scan the raster-ordered cell list, flooding from each
cell not already claimed by an earlier component; components come out in the
order `measure.label` assigns labels (raster order of the first pixel). -/
def componentsAux (cells : List (ℕ × ℕ)) :
    ℕ → List (ℕ × ℕ) → List (ℕ × ℕ) → List (List (ℕ × ℕ))
  | 0, _, _ => []
  | _ + 1, [], _ => []
  | fuel + 1, p :: rest, seen =>
    if p ∈ seen then componentsAux cells fuel rest seen
    else
      let comp := flood cells p
      comp :: componentsAux cells fuel rest (comp ++ seen)

/-- The connected components of a cell list. -/
def componentsOf (cells : List (ℕ × ℕ)) : List (List (ℕ × ℕ)) :=
  componentsAux cells cells.length cells []

/-- Geographic bounding box computed by `generate_risk_geojson` from a pixel
bounding box at 1 km per pixel, `deg_per_pixel = 1/111`:
`lat_max = lat_center - minr*deg; lat_min = lat_center - maxr*deg;
lon_min = lon_center + minc*deg; lon_max = lon_center + maxc*deg`. -/
structure GeoBBox where
  lat_min : ℚ
  lat_max : ℚ
  lon_min : ℚ
  lon_max : ℚ
deriving DecidableEq

/-- The projection formulas of `generate_risk_geojson` (rows grow southward,
columns grow eastward). -/
def projectBBox (lat_center lon_center : ℚ) (minr minc maxr maxc : ℕ) : GeoBBox :=
  { lat_min := lat_center - (maxr : ℚ) * (1 / 111)
    lat_max := lat_center - (minr : ℚ) * (1 / 111)
    lon_min := lon_center + (minc : ℚ) * (1 / 111)
    lon_max := lon_center + (maxc : ℚ) * (1 / 111) }

/-- One GeoJSON feature: the `properties` dict of the source plus the 5-point
closed ring of its rectangle geometry. -/
structure Feature where
  risk_level : String
  risk_score : ℚ
  area_km2 : ℚ
  color : String
  center_lat : ℚ
  center_lon : ℚ
  ring : List (ℚ × ℚ)
deriving DecidableEq

/-- Builds the feature of one labelled region: `region.bbox` of skimage is
half-open, `(min_row, min_col, max_row + 1, max_col + 1)`; the mean score is
taken over the region's member cells; `area_km2 = region.area * 1.0`. -/
def mkFeature (risk : List (List ℚ)) (lat_center lon_center : ℚ) (level color : String)
    (comp : List (ℕ × ℕ)) : Feature :=
  let minr := ((comp.map Prod.fst).min?).getD 0
  let maxr := ((comp.map Prod.fst).max?).getD 0 + 1
  let minc := ((comp.map Prod.snd).min?).getD 0
  let maxc := ((comp.map Prod.snd).max?).getD 0 + 1
  let bb := projectBBox lat_center lon_center minr minc maxr maxc
  { risk_level := level
    risk_score := (comp.map fun p => getA risk p.1 p.2).sum / (comp.length : ℚ)
    area_km2 := (comp.length : ℚ)
    color := color
    center_lat := (bb.lat_min + bb.lat_max) / 2
    center_lon := (bb.lon_min + bb.lon_max) / 2
    ring := [(bb.lon_min, bb.lat_min), (bb.lon_max, bb.lat_min), (bb.lon_max, bb.lat_max),
             (bb.lon_min, bb.lat_max), (bb.lon_min, bb.lat_min)] }

/-- Embedding of `generate_risk_geojson(risk_score, lat_center, lon_center)`:
for each band the score grid is thresholded into a mask, the mask is labelled
into 8-connected components, components of pixel area < 3 are dropped, and the
rest become features.  The source's `FeatureCollection` dict is just this list
of features; its `if not mask.any(): continue` is subsumed because an empty mask
yields no components. -/
def generate_risk_geojson (risk : List (List ℚ)) (lat_center lon_center : ℚ) : List Feature :=
  riskLevels.flatMap fun b =>
    (componentsOf (cellsOf (bandMask risk b.1 b.2.1))).filterMap fun comp =>
      if comp.length < 3 then none
      else some (mkFeature risk lat_center lon_center b.2.2.1 b.2.2.2 comp)

/-- C7: the projection of the pixel bounding box (0, 0, 10, 10) at center
(26.0, 92.0) with 1 km per pixel: `lat_max = 26`, `lat_min = 26 - 10/111`,
`lon_min = 92`, `lon_max = 92 + 10/111`. -/
theorem projectBBox_example :
    projectBBox 26 92 0 0 10 10 =
      { lat_min := 26 - 10 / 111, lat_max := 26, lon_min := 92,
        lon_max := 92 + 10 / 111 } := by
  unfold projectBBox
  norm_num

/-- C3 (counterexample): a cell whose clamped score is exactly 100 has score
at least 40, yet the three half-open bands of `risk_levels` all exclude it
(HIGH requires `risk_score < 100`), so it belongs to no band. -/
theorem countBands_at_100 : (40:ℚ) ≤ 100 ∧ countBands 100 = 0 := by
  constructor
  · norm_num
  · decide

/-- C3 (amended): every score in [40, 100) lies in exactly one band, scores
below 40 lie in no band, and scores of 100 or more (the clamp in
`calculate_risk_score` makes exactly 100 reachable) also lie in no band. -/
theorem countBands_partition (s : ℚ) :
    (40 ≤ s → s < 100 → countBands s = 1) ∧ (s < 40 → countBands s = 0) ∧
      (100 ≤ s → countBands s = 0) := by
  refine ⟨?_, ?_, ?_⟩
  · intro h40 h100
    rcases lt_or_le s 60 with h60 | h60
    · have a : ¬ (80 ≤ s) := by linarith
      have b : ¬ (60 ≤ s) := by linarith
      simp [countBands, riskLevels, List.filter, a, b, h40, h60]
    · rcases lt_or_le s 80 with h80 | h80
      · have a : ¬ (80 ≤ s) := by linarith
        have b : ¬ (s < 60) := by linarith
        simp [countBands, riskLevels, List.filter, a, b, h60, h80]
      · have a : ¬ (s < 80) := by linarith
        have b : ¬ (s < 60) := by linarith
        simp [countBands, riskLevels, List.filter, a, b, h80, h100]
  · intro h40
    have a : ¬ (80 ≤ s) := by linarith
    have b : ¬ (60 ≤ s) := by linarith
    have c : ¬ (40 ≤ s) := by linarith
    simp [countBands, riskLevels, List.filter, a, b, c]
  · intro h100
    have a : ¬ (s < 100) := by linarith
    have b : ¬ (s < 80) := by linarith
    have c : ¬ (s < 60) := by linarith
    simp [countBands, riskLevels, List.filter, a, b, c]

/-- Witness for the band partition at concrete scores in each range. -/
theorem countBands_partition_witness :
    countBands 45 = 1 ∧ countBands 35 = 0 ∧ countBands 150 = 0 :=
  ⟨(countBands_partition 45).1 (by decide) (by decide),
   (countBands_partition 35).2.1 (by decide),
   (countBands_partition 150).2.2 (by decide)⟩

theorem mem_cellsOf {mask : List (List Bool)} {p : ℕ × ℕ} (hp : p ∈ cellsOf mask) :
    gget mask false p.1 p.2 = true := by
  unfold cellsOf at hp
  rcases List.mem_flatMap.1 hp with ⟨i, _, hi2⟩
  rcases List.mem_filterMap.1 hi2 with ⟨j, _, hj2⟩
  by_cases h : gget mask false i j = true
  · rw [if_pos h] at hj2
    obtain rfl := Option.some.inj hj2
    exact h
  · rw [if_neg h] at hj2
    exact absurd hj2 (by simp)

theorem bandMask_mem (risk : List (List ℚ)) (lo hi : ℚ) (i j : ℕ)
    (h : gget (bandMask risk lo hi) false i j = true) :
    lo ≤ getA risk i j ∧ getA risk i j < hi := by
  unfold bandMask at h
  rw [gget, cellO_map_map] at h
  cases hc : cellO risk i j with
  | none => rw [hc] at h; simp at h
  | some s =>
    rw [hc] at h
    simp at h
    have : getA risk i j = s := by rw [getA, gget, hc]; rfl
    rw [this]
    exact h

theorem floodAux_subset (cells : List (ℕ × ℕ)) :
    ∀ (fuel : ℕ) (frontier visited : List (ℕ × ℕ)),
      (∀ p ∈ frontier, p ∈ cells) → (∀ p ∈ visited, p ∈ cells) →
      ∀ p ∈ floodAux cells fuel frontier visited, p ∈ cells := by
  intro fuel
  induction fuel with
  | zero =>
    intro frontier visited _ hv p hp
    simp only [floodAux] at hp
    exact hv p hp
  | succ n ih =>
    intro frontier visited hf hv p hp
    cases frontier with
    | nil =>
      simp only [floodAux] at hp
      exact hv p hp
    | cons q rest =>
      rw [floodAux] at hp
      by_cases hq : q ∈ visited
      · rw [if_pos hq] at hp
        exact ih rest visited (fun r hr => hf r (List.mem_cons_of_mem q hr)) hv p hp
      · rw [if_neg hq] at hp
        refine ih _ _ ?_ ?_ p hp
        · intro r hr
          rcases List.mem_append.1 hr with h | h
          · exact List.mem_of_mem_filter h
          · exact hf r (List.mem_cons_of_mem q h)
        · intro r hr
          rcases List.mem_cons.1 hr with rfl | h
          · exact hf r (List.mem_cons_self r rest)
          · exact hv r h

theorem flood_subset (cells : List (ℕ × ℕ)) (p0 : ℕ × ℕ) (h0 : p0 ∈ cells) :
    ∀ p ∈ flood cells p0, p ∈ cells := by
  apply floodAux_subset
  · intro p hp
    rcases List.mem_cons.1 hp with rfl | h
    · exact h0
    · exact absurd h (List.not_mem_nil p)
  · intro p hp
    exact absurd hp (List.not_mem_nil p)

theorem componentsAux_subset (cells : List (ℕ × ℕ)) :
    ∀ (fuel : ℕ) (todo seen : List (ℕ × ℕ)), (∀ p ∈ todo, p ∈ cells) →
      ∀ comp ∈ componentsAux cells fuel todo seen, ∀ p ∈ comp, p ∈ cells := by
  intro fuel
  induction fuel with
  | zero =>
    intro todo seen _ comp hcomp
    rw [componentsAux] at hcomp
    exact absurd hcomp (List.not_mem_nil comp)
  | succ n ih =>
    intro todo seen ht comp hcomp
    cases todo with
    | nil => simp [componentsAux] at hcomp
    | cons q rest =>
      rw [componentsAux] at hcomp
      by_cases hq : q ∈ seen
      · rw [if_pos hq] at hcomp
        exact ih rest seen (fun r hr => ht r (List.mem_cons_of_mem q hr)) comp hcomp
      · rw [if_neg hq] at hcomp
        simp only at hcomp
        rcases List.mem_cons.1 hcomp with rfl | h
        · exact flood_subset cells q (ht q (List.mem_cons_self q rest))
        · exact ih rest _ (fun r hr => ht r (List.mem_cons_of_mem q hr)) comp h

theorem componentsOf_subset (cells : List (ℕ × ℕ)) :
    ∀ comp ∈ componentsOf cells, ∀ p ∈ comp, p ∈ cells :=
  componentsAux_subset cells cells.length cells [] (fun _ hp => hp)

theorem list_sum_bounds (lo hi : ℚ) :
    ∀ l : List ℚ, (∀ x ∈ l, lo ≤ x ∧ x < hi) →
      lo * l.length ≤ l.sum ∧ (l ≠ [] → l.sum < hi * l.length) := by
  intro l
  induction l with
  | nil => intro _; simp
  | cons a t ih =>
    intro h
    have ha := h a (List.mem_cons_self a t)
    have ht := ih fun x hx => h x (List.mem_cons_of_mem a hx)
    constructor
    · simp only [List.sum_cons, List.length_cons]
      push_cast
      linarith [ht.1, ha.1]
    · intro _
      cases t with
      | nil =>
        simp only [List.sum_cons, List.sum_nil, List.length_cons, List.length_nil]
        push_cast
        linarith [ha.2]
      | cons b u =>
        have h2 := ht.2 (by simp)
        simp only [List.sum_cons, List.length_cons] at h2 ⊢
        push_cast at h2 ⊢
        linarith [ha.2]

/-- Mean of a nonempty list of values all inside `[lo, hi)` stays inside `[lo, hi)`. -/
theorem mean_mem (lo hi : ℚ) (l : List ℚ) (hb : ∀ x ∈ l, lo ≤ x ∧ x < hi) (hne : l ≠ []) :
    lo ≤ l.sum / (l.length : ℚ) ∧ l.sum / (l.length : ℚ) < hi := by
  have hlen : (0:ℚ) < (l.length : ℚ) := by
    have := List.length_pos.2 hne
    exact_mod_cast this
  have hs := list_sum_bounds lo hi l hb
  constructor
  · rw [le_div_iff₀ hlen]
    exact hs.1
  · rw [div_lt_iff₀ hlen]
    exact hs.2 hne

/-- C8: every feature emitted by `generate_risk_geojson` comes from a labelled
component whose pixel area (`area_km2 = region.area * 1.0`) is at least 3; the
`if region.area < 3: continue` filter drops all smaller components. -/
theorem generate_risk_geojson_min_area (risk : List (List ℚ)) (lat_center lon_center : ℚ) :
    ((generate_risk_geojson risk lat_center lon_center).all fun f =>
      decide ((3:ℚ) ≤ f.area_km2)) = true := by
  rw [List.all_eq_true]
  intro f hf
  rcases List.mem_flatMap.1 hf with ⟨b, _, hfb⟩
  rcases List.mem_filterMap.1 hfb with ⟨comp, _, hcomp⟩
  rw [decide_eq_true_eq]
  by_cases h3 : comp.length < 3
  · rw [if_pos h3] at hcomp
    exact absurd hcomp (by simp)
  · rw [if_neg h3] at hcomp
    obtain rfl := Option.some.inj hcomp
    show (3:ℚ) ≤ (comp.length : ℚ)
    push_neg at h3
    exact_mod_cast h3

theorem mkFeature_level (risk : List (List ℚ)) (latc lonc : ℚ) (level color : String)
    (comp : List (ℕ × ℕ)) :
    (mkFeature risk latc lonc level color comp).risk_level = level := rfl

theorem mkFeature_score (risk : List (List ℚ)) (latc lonc : ℚ) (level color : String)
    (comp : List (ℕ × ℕ)) :
    (mkFeature risk latc lonc level color comp).risk_score =
      (comp.map fun p => getA risk p.1 p.2).sum / (comp.length : ℚ) := rfl

/-- The mean score over a component of a band mask stays in the band's
half-open range. -/
theorem comp_mean_mem (risk : List (List ℚ)) (lo hi : ℚ) (comp : List (ℕ × ℕ))
    (hsub : ∀ p ∈ comp, p ∈ cellsOf (bandMask risk lo hi)) (hne : comp ≠ []) :
    lo ≤ (comp.map fun p => getA risk p.1 p.2).sum / (comp.length : ℚ) ∧
      (comp.map fun p => getA risk p.1 p.2).sum / (comp.length : ℚ) < hi := by
  have hb : ∀ x ∈ comp.map fun p => getA risk p.1 p.2, lo ≤ x ∧ x < hi := by
    intro x hx
    rcases List.mem_map.1 hx with ⟨p, hp, rfl⟩
    exact bandMask_mem risk lo hi p.1 p.2 (mem_cellsOf (hsub p hp))
  have hne' : (comp.map fun p => getA risk p.1 p.2) ≠ [] := by simpa using hne
  have hmean := mean_mem lo hi _ hb hne'
  rwa [List.length_map] at hmean

/-- C10: the `risk_level` label and the mean `risk_score` of every emitted
feature agree: a HIGH feature has mean score in [80, 100), MEDIUM in [60, 80),
LOW in [40, 60) — the mean over cells of one band mask cannot leave the band. -/
theorem generate_risk_geojson_level_consistent (risk : List (List ℚ))
    (lat_center lon_center : ℚ) :
    ((generate_risk_geojson risk lat_center lon_center).all fun f =>
      if f.risk_level = "HIGH" then
        decide ((80:ℚ) ≤ f.risk_score) && decide (f.risk_score < 100)
      else if f.risk_level = "MEDIUM" then
        decide ((60:ℚ) ≤ f.risk_score) && decide (f.risk_score < 80)
      else if f.risk_level = "LOW" then
        decide ((40:ℚ) ≤ f.risk_score) && decide (f.risk_score < 60)
      else false) = true := by
  rw [List.all_eq_true]
  intro f hf
  rcases List.mem_flatMap.1 hf with ⟨b, hb, hfb⟩
  rcases List.mem_filterMap.1 hfb with ⟨comp, hcm, hcomp⟩
  by_cases h3 : comp.length < 3
  · rw [if_pos h3] at hcomp
    exact absurd hcomp (by simp)
  rw [if_neg h3] at hcomp
  obtain rfl := Option.some.inj hcomp
  have hne : comp ≠ [] := by
    intro h
    exact h3 (by simp [h])
  simp only [riskLevels, List.mem_cons, List.not_mem_nil, or_false] at hb
  have hsub := componentsOf_subset _ comp hcm
  rcases hb with rfl | rfl | rfl <;>
    · have hsc := comp_mean_mem risk _ _ comp hsub hne
      simp [mkFeature_level, mkFeature_score, hsc.1, hsc.2]

/-- One alert of `generate_alerts_from_geojson`.  The templated title and
description strings and the datetime stamp are presentational; `seq` is the
zero-padded enumeration index `idx` embedded in the id
`ALERT-<date>-<idx:03d>`, and `confidence = max(50, min(95, 60 + (risk_score - 40) * 0.7))`. -/
structure Alert where
  seq : ℕ
  level : String
  area_km2 : ℚ
  confidence : ℚ
  lat : ℚ
  lon : ℚ
deriving DecidableEq, Inhabited

/-- The `risk_order` dict `{"HIGH": 0, "MEDIUM": 1, "LOW": 2}`; `none` stands
for the `KeyError` the source raises on any other level string. -/
def risk_order (level : String) : Option ℕ :=
  if level = "HIGH" then some 0
  else if level = "MEDIUM" then some 1
  else if level = "LOW" then some 2
  else none

/-- Band rank used by the sort key, with a junk value 3 off the dict's domain
(the source would have raised before sorting in that case). -/
def rankD (level : String) : ℕ := (risk_order level).getD 3

/-- The alert-construction loop of `generate_alerts_from_geojson`, before
sorting: alerts are built by enumerating the features in order. -/
def mkAlerts (features : List Feature) : List Alert :=
  features.enum.map fun e =>
    { seq := e.1
      level := e.2.risk_level
      area_km2 := e.2.area_km2
      confidence := max 50 (min 95 (60 + (e.2.risk_score - 40) * (7/10)))
      lat := e.2.center_lat
      lon := e.2.center_lon }

/-- The total preorder of the sort key `(risk_order[x.level], -x.area_km2)`:
rank strictly smaller, or rank equal and area at least as large. -/
def alertLE (a b : Alert) : Bool :=
  decide (rankD a.level < rankD b.level) ||
    (decide (rankD a.level = rankD b.level) && decide (b.area_km2 ≤ a.area_km2))

/-- Embedding of `generate_alerts_from_geojson`: build one alert per feature in
order, then `alerts.sort(key=lambda x: (risk_order[x.level], -x.area_km2))`.
Python's sort is stable, as is `mergeSort`, and a stable sort by a total
preorder is unique, so this is the same list the source produces. -/
def generate_alerts_from_geojson (features : List Feature) : List Alert :=
  (mkAlerts features).mergeSort alertLE

theorem alertLE_total (a b : Alert) : (alertLE a b || alertLE b a) = true := by
  unfold alertLE
  by_cases h1 : rankD a.level < rankD b.level
  · simp [h1]
  · by_cases h2 : rankD b.level < rankD a.level
    · simp [h2]
    · have he : rankD a.level = rankD b.level := by omega
      rcases le_total b.area_km2 a.area_km2 with h3 | h3 <;> simp [he, h3]

theorem alertLE_trans (a b c : Alert) :
    alertLE a b = true → alertLE b c = true → alertLE a c = true := by
  unfold alertLE
  intro h1 h2
  simp only [Bool.or_eq_true, Bool.and_eq_true, decide_eq_true_eq] at h1 h2 ⊢
  rcases h1 with h1 | ⟨h1e, h1a⟩ <;> rcases h2 with h2 | ⟨h2e, h2a⟩
  · left; omega
  · left; omega
  · left; omega
  · right; exact ⟨by omega, le_trans h2a h1a⟩

/-- C6: in the returned alert list, band ranks (HIGH = 0, MEDIUM = 1, LOW = 2)
never decrease between adjacent alerts, and within equal ranks the affected
area never increases.  The hypothesis restricts levels to the dict's domain,
where the source does not raise `KeyError`. -/
theorem generate_alerts_sorted (features : List Feature)
    (_hlv : ∀ f ∈ features, (risk_order f.risk_level).isSome = true)
    (i : ℕ) (h : i + 1 < (generate_alerts_from_geojson features).length) :
    rankD ((generate_alerts_from_geojson features).getD i default).level ≤
      rankD ((generate_alerts_from_geojson features).getD (i + 1) default).level ∧
    (rankD ((generate_alerts_from_geojson features).getD i default).level =
        rankD ((generate_alerts_from_geojson features).getD (i + 1) default).level →
      ((generate_alerts_from_geojson features).getD (i + 1) default).area_km2 ≤
        ((generate_alerts_from_geojson features).getD i default).area_km2) := by
  have hs := @List.sorted_mergeSort Alert alertLE
    (fun a b c hab hbc => alertLE_trans a b c hab hbc) alertLE_total (mkAlerts features)
  have hi : i < (generate_alerts_from_geojson features).length := by omega
  have hpair := List.pairwise_iff_getElem.1 hs i (i + 1)
    (by simpa [generate_alerts_from_geojson] using hi)
    (by simpa [generate_alerts_from_geojson] using h) (by omega)
  have hle : alertLE ((generate_alerts_from_geojson features).getD i default)
      ((generate_alerts_from_geojson features).getD (i + 1) default) = true := by
    rw [List.getD_eq_getElem?_getD, List.getD_eq_getElem?_getD,
      List.getElem?_eq_getElem hi, List.getElem?_eq_getElem h]
    simpa [generate_alerts_from_geojson] using hpair
  unfold alertLE at hle
  simp only [Bool.or_eq_true, Bool.and_eq_true, decide_eq_true_eq] at hle
  constructor
  · rcases hle with h1 | ⟨h1, _⟩ <;> omega
  · intro heq
    rcases hle with h1 | ⟨_, h2⟩
    · omega
    · exact h2

/-- Two well-formed features used to exercise the alert-ordering theorem. -/
def demoFeatures : List Feature :=
  [{ risk_level := "HIGH", risk_score := 85, area_km2 := 4, color := "#ef4444",
     center_lat := 26, center_lon := 92, ring := [] },
   { risk_level := "LOW", risk_score := 45, area_km2 := 3, color := "#fbbf24",
     center_lat := 26, center_lon := 92, ring := [] }]

/-- Witness: the ordering theorem applied to a concrete two-feature collection. -/
theorem generate_alerts_sorted_witness :
    rankD ((generate_alerts_from_geojson demoFeatures).getD 0 default).level ≤
      rankD ((generate_alerts_from_geojson demoFeatures).getD 1 default).level ∧
    (rankD ((generate_alerts_from_geojson demoFeatures).getD 0 default).level =
        rankD ((generate_alerts_from_geojson demoFeatures).getD 1 default).level →
      ((generate_alerts_from_geojson demoFeatures).getD 1 default).area_km2 ≤
        ((generate_alerts_from_geojson demoFeatures).getD 0 default).area_km2) :=
  generate_alerts_sorted demoFeatures (by decide) 0
    (by simp [generate_alerts_from_geojson, List.length_mergeSort, mkAlerts, demoFeatures])

unseal List.merge List.mergeSort in
/-- C9 (counterexample): ids are assigned by enumerating the features before
sorting.  Two HIGH features with areas 3 then 5 get seq 0 and 1, the area sort
puts the larger area first, and the returned seq order is [1, 0] — not
monotonically increasing. -/
theorem generate_alerts_ids_not_monotone :
    ¬ List.Sorted (· ≤ ·) ((generate_alerts_from_geojson
      [{ risk_level := "HIGH", risk_score := 85, area_km2 := 3, color := "#ef4444",
         center_lat := 26, center_lon := 92, ring := [] },
       { risk_level := "HIGH", risk_score := 85, area_km2 := 5, color := "#ef4444",
         center_lat := 26, center_lon := 92, ring := [] }]).map fun a => a.seq) := by
  decide

/-- C9 (amended): the sequence indices embedded in the alert ids increase
monotonically in the order the alerts are generated (the input feature order):
they are exactly `0, 1, 2, ...`.  The final sort by (band rank, area
descending) then reorders the list, so the ids need not increase in the
returned order. -/
theorem mkAlerts_seq_increasing (features : List Feature) :
    (mkAlerts features).map (fun a => a.seq) = List.range features.length := by
  unfold mkAlerts
  rw [List.map_map]
  have hcomp : ((fun a : Alert => a.seq) ∘ fun e : ℕ × Feature =>
      ({ seq := e.1, level := e.2.risk_level, area_km2 := e.2.area_km2,
         confidence := max 50 (min 95 (60 + (e.2.risk_score - 40) * (7/10))),
         lat := e.2.center_lat, lon := e.2.center_lon } : Alert)) = Prod.fst :=
    funext fun e => rfl
  rw [hcomp, List.enum_map_fst]

/-- Witness: the mask-entry characterization applied to concrete 1-by-1 grids. -/
theorem detect_water_change_spec_witness :
    ∃ mask, detect_water_change [[(0:ℚ)]] [[(1:ℚ)]] (1/5) = some mask ∧
      ((mask.getD 0 []).getD 0 false = true ↔
        (getA [[(1:ℚ)]] 0 0 - getA [[(0:ℚ)]] 0 0 > 1/5 ∧ getA [[(1:ℚ)]] 0 0 > 3/10)) :=
  detect_water_change_spec.1 [[0]] [[1]] (1/5) 1 1 0 0 rfl rfl rfl rfl
    (by decide) (by decide)
